import Mathlib

/-
Verification of the wave repository (src/main.rs): a RIFF/WAVE parser,
an SDL audio callback that publishes a playback position, and a waveform
visualizer.  The Rust code is shallowly embedded: byte buffers are
List Nat (each element a u8 value), i16 samples are Int in
[-32768, 32767], and the three observable outcomes of WAVFile::parse
(success, a returned Err, a Rust panic) are the constructors of
ParseResult.  A panic (out-of-bounds slice index, or .unwrap() applied
to an Err) is modelled by the dedicated panicked constructor, since a
panicking call returns no value and leaves no observable state.
-/

namespace Wave

/-- Validity of a byte sequence as UTF-8, following the standard table
used by std::str::from_utf8: ASCII one-byte sequences, 0xC2-0xDF lead
bytes for two-byte sequences, the four three-byte forms (with the E0/ED
range restrictions excluding overlong encodings and surrogates) and the
three four-byte forms (with the F0/F4 restrictions). -/
def isCont (b : Nat) : Bool := 0x80 ≤ b && b ≤ 0xBF

def validUtf8 : List Nat → Bool
  | [] => true
  | b0 :: rest =>
    if b0 ≤ 0x7F then validUtf8 rest
    else if 0xC2 ≤ b0 && b0 ≤ 0xDF then
      match rest with
      | b1 :: rest1 => isCont b1 && validUtf8 rest1
      | [] => false
    else if b0 = 0xE0 then
      match rest with
      | b1 :: b2 :: rest2 => (0xA0 ≤ b1 && b1 ≤ 0xBF) && isCont b2 && validUtf8 rest2
      | _ => false
    else if 0xE1 ≤ b0 && b0 ≤ 0xEC then
      match rest with
      | b1 :: b2 :: rest2 => isCont b1 && isCont b2 && validUtf8 rest2
      | _ => false
    else if b0 = 0xED then
      match rest with
      | b1 :: b2 :: rest2 => (0x80 ≤ b1 && b1 ≤ 0x9F) && isCont b2 && validUtf8 rest2
      | _ => false
    else if 0xEE ≤ b0 && b0 ≤ 0xEF then
      match rest with
      | b1 :: b2 :: rest2 => isCont b1 && isCont b2 && validUtf8 rest2
      | _ => false
    else if b0 = 0xF0 then
      match rest with
      | b1 :: b2 :: b3 :: rest3 =>
        (0x90 ≤ b1 && b1 ≤ 0xBF) && isCont b2 && isCont b3 && validUtf8 rest3
      | _ => false
    else if 0xF1 ≤ b0 && b0 ≤ 0xF3 then
      match rest with
      | b1 :: b2 :: b3 :: rest3 => isCont b1 && isCont b2 && isCont b3 && validUtf8 rest3
      | _ => false
    else if b0 = 0xF4 then
      match rest with
      | b1 :: b2 :: b3 :: rest3 =>
        (0x80 ≤ b1 && b1 ≤ 0x8F) && isCont b2 && isCont b3 && validUtf8 rest3
      | _ => false
    else false

/-- Little-endian u32 value of four bytes, as computed by
little_to_big_u32: data[0] | data[1] << 8 | data[2] << 16 | data[3] << 24. -/
def u32le (b0 b1 b2 b3 : Nat) : Nat :=
  b0 ||| (b1 <<< 8) ||| (b2 <<< 16) ||| (b3 <<< 24)

/-- Little-endian u16 value of two bytes, as computed by
little_to_big_u16: data[0] | data[1] << 8. -/
def u16le (b0 b1 : Nat) : Nat := b0 ||| (b1 <<< 8)

/-- Embedding of fn little_to_big_u32(data: &mut Vec<u8>) -> u32.  The
Rust function indexes data[0..=3] and then drains those four bytes; with
fewer than four bytes the indexing panics, modelled by none. -/
def little_to_big_u32 : List Nat → Option (Nat × List Nat)
  | b0 :: b1 :: b2 :: b3 :: rest => some (u32le b0 b1 b2 b3, rest)
  | _ => none

/-- Embedding of fn little_to_big_u16(data: &mut Vec<u8>) -> u16, with
the out-of-bounds panic on fewer than two bytes modelled by none. -/
def little_to_big_u16 : List Nat → Option (Nat × List Nat)
  | b0 :: b1 :: rest => some (u16le b0 b1, rest)
  | _ => none

/-- Result of fn bytes_to_boxed_str: the slice data[0..4] panics when
fewer than four bytes remain (panicked); std::str::from_utf8 returns a
Utf8Error on invalid bytes (invalid, the buffer is not drained on this
path); otherwise the four tag bytes are returned and drained (ok). -/
inductive TagResult where
  | panicked : TagResult
  | invalid : TagResult
  | ok (tag : List Nat) (rest : List Nat) : TagResult
deriving DecidableEq

/-- Embedding of fn bytes_to_boxed_str(data: &mut Vec<u8>).  The Box of
str it produces is represented by its UTF-8 bytes (the four tag bytes),
which is a faithful representation since UTF-8 decoding is injective. -/
def bytes_to_boxed_str (data : List Nat) : TagResult :=
  if 4 ≤ data.length then
    let bytes := data.take 4
    if validUtf8 bytes then TagResult.ok bytes (data.drop 4) else TagResult.invalid
  else TagResult.panicked

/-- Embedding of struct Header, with Box of str tag fields represented
by their UTF-8 byte sequences.  Default::default() gives empty tags and
zero numeric fields, matching Rust's Default derive. -/
structure Header where
  chunk_id : List Nat := []
  chunk_size : Nat := 0
  format : List Nat := []
  subchunk1_id : List Nat := []
  subchunk1_size : Nat := 0
  audio_format : Nat := 0
  num_channels : Nat := 0
  sample_rate : Nat := 0
  byte_rate : Nat := 0
  block_align : Nat := 0
  bits_per_sample : Nat := 0
  subchunk2_id : List Nat := []
  subchunk2_size : Nat := 0
deriving DecidableEq

/-- Embedding of struct WAVFile: header, a copy of subchunk2_size, and
the decoded i16 sample buffer (Int values in [-32768, 32767]). -/
structure WAVFile where
  header : Header := {}
  data_size : Nat := 0
  data : List Int := []
deriving DecidableEq

/-- The error value Err("unexpected end of file") returned by
WAVFile::parse, modelled as a dedicated constructor instead of the Rust
string message. -/
inductive WavError where
  | unexpected_end_of_file : WavError
deriving DecidableEq

/-- Outcome of a call to WAVFile::parse(&mut self, data: &mut Vec<u8>):
ok carries the post-call self and the post-call buffer, err carries the
returned error together with the post-call self and buffer (the call
mutates self.header before the size check), panicked models a Rust
panic (no observable post-state). -/
inductive ParseResult where
  | ok (self : WAVFile) (buf : List Nat) : ParseResult
  | err (e : WavError) (self : WAVFile) (buf : List Nat) : ParseResult
  | panicked : ParseResult
deriving DecidableEq

/-- Embedding of i16::from_le_bytes([b0, b1]): the u16 value b0 | b1<<8
reinterpreted as a two's-complement signed 16-bit integer. -/
def i16_from_le_bytes (b0 b1 : Nat) : Int :=
  let v := u16le b0 b1
  if v < 32768 then (v : Int) else (v : Int) - 65536

/-- Embedding of the raw.chunks_exact(2) loop of WAVFile::parse: each
complete pair of bytes becomes one little-endian i16 sample; a trailing
odd byte is not visited by chunks_exact and is dropped. -/
def chunksExact2 : List Nat → List Int
  | b0 :: b1 :: rest => i16_from_le_bytes b0 b1 :: chunksExact2 rest
  | _ => []

/-- Embedding of WAVFile::parse.  Each reader call consumes bytes from
the front of the buffer exactly as in the source; the .unwrap() applied
to the Result of bytes_to_boxed_str turns its Utf8Error into a panic, as
does an out-of-bounds read in any reader.  All header fields are
assigned before the subchunk2_size bounds check, so the err outcome
carries a fully overwritten header while self.data is untouched. -/
def parse (self : WAVFile) (data : List Nat) : ParseResult :=
  match bytes_to_boxed_str data with
  | TagResult.panicked => ParseResult.panicked
  | TagResult.invalid => ParseResult.panicked
  | TagResult.ok chunk_id data =>
  match little_to_big_u32 data with
  | none => ParseResult.panicked
  | some (chunk_size, data) =>
  match bytes_to_boxed_str data with
  | TagResult.panicked => ParseResult.panicked
  | TagResult.invalid => ParseResult.panicked
  | TagResult.ok format data =>
  match bytes_to_boxed_str data with
  | TagResult.panicked => ParseResult.panicked
  | TagResult.invalid => ParseResult.panicked
  | TagResult.ok subchunk1_id data =>
  match little_to_big_u32 data with
  | none => ParseResult.panicked
  | some (subchunk1_size, data) =>
  match little_to_big_u16 data with
  | none => ParseResult.panicked
  | some (audio_format, data) =>
  match little_to_big_u16 data with
  | none => ParseResult.panicked
  | some (num_channels, data) =>
  match little_to_big_u32 data with
  | none => ParseResult.panicked
  | some (sample_rate, data) =>
  match little_to_big_u32 data with
  | none => ParseResult.panicked
  | some (byte_rate, data) =>
  match little_to_big_u16 data with
  | none => ParseResult.panicked
  | some (block_align, data) =>
  match little_to_big_u16 data with
  | none => ParseResult.panicked
  | some (bits_per_sample, data) =>
  match bytes_to_boxed_str data with
  | TagResult.panicked => ParseResult.panicked
  | TagResult.invalid => ParseResult.panicked
  | TagResult.ok subchunk2_id data =>
  match little_to_big_u32 data with
  | none => ParseResult.panicked
  | some (data_size, data) =>
    let self1 : WAVFile :=
      { self with
        header :=
          { chunk_id := chunk_id, chunk_size := chunk_size, format := format,
            subchunk1_id := subchunk1_id, subchunk1_size := subchunk1_size,
            audio_format := audio_format, num_channels := num_channels,
            sample_rate := sample_rate, byte_rate := byte_rate,
            block_align := block_align, bits_per_sample := bits_per_sample,
            subchunk2_id := subchunk2_id, subchunk2_size := data_size },
        data_size := data_size }
    if data.length < data_size then
      ParseResult.err WavError.unexpected_end_of_file self1 data
    else
      ParseResult.ok { self1 with data := chunksExact2 (data.take data_size) }
        (data.drop data_size)

/-- Sample count of chunks_exact(2): one sample per complete byte pair. -/
theorem chunksExact2_length : ∀ l : List Nat, (chunksExact2 l).length = l.length / 2
  | [] => by simp [chunksExact2]
  | [_] => by simp [chunksExact2]
  | _ :: _ :: rest => by
    simp only [chunksExact2, List.length_cons]
    rw [chunksExact2_length rest]
    omega

/-- Reading a tag from a buffer that starts with four valid bytes
returns those bytes and drains them. -/
theorem bytes_to_boxed_str_ok {t : List Nat} (r : List Nat) (h : t.length = 4)
    (hv : validUtf8 t = true) : bytes_to_boxed_str (t ++ r) = TagResult.ok t r := by
  have h4 : 4 ≤ (t ++ r).length := by simp [List.length_append, h]
  have htake : (t ++ r).take 4 = t := by rw [← h]; exact List.take_left t r
  have hdrop : (t ++ r).drop 4 = r := by rw [← h]; exact List.drop_left t r
  simp only [bytes_to_boxed_str, htake, hdrop]
  rw [if_pos h4, if_pos hv]

/-- Reading a tag from a buffer that starts with four bytes that are not
valid UTF-8 yields the Utf8Error outcome. -/
theorem bytes_to_boxed_str_invalid {t : List Nat} (r : List Nat) (h : t.length = 4)
    (hv : validUtf8 t = false) : bytes_to_boxed_str (t ++ r) = TagResult.invalid := by
  have h4 : 4 ≤ (t ++ r).length := by simp [List.length_append, h]
  have htake : (t ++ r).take 4 = t := by rw [← h]; exact List.take_left t r
  simp only [bytes_to_boxed_str, htake]
  rw [if_pos h4, if_neg (by simp [hv])]

/-- A successful tag read consumed exactly four bytes. -/
theorem bytes_to_boxed_str_ok_length {bs t r : List Nat}
    (h : bytes_to_boxed_str bs = TagResult.ok t r) : r.length + 4 = bs.length := by
  simp only [bytes_to_boxed_str] at h
  by_cases h4 : 4 ≤ bs.length
  · rw [if_pos h4] at h
    by_cases hv : validUtf8 (bs.take 4)
    · rw [if_pos hv] at h
      cases h
      simp only [List.length_drop]
      omega
    · rw [if_neg hv] at h
      cases h
  · rw [if_neg h4] at h
    cases h

/-- A successful u32 read consumed exactly four bytes. -/
theorem little_to_big_u32_some_length {bs : List Nat} {v : Nat} {r : List Nat}
    (h : little_to_big_u32 bs = some (v, r)) : r.length + 4 = bs.length := by
  rcases bs with _ | ⟨b0, _ | ⟨b1, _ | ⟨b2, _ | ⟨b3, rest⟩⟩⟩⟩ <;>
    simp_all [little_to_big_u32]

/-- A successful u16 read consumed exactly two bytes. -/
theorem little_to_big_u16_some_length {bs : List Nat} {v : Nat} {r : List Nat}
    (h : little_to_big_u16 bs = some (v, r)) : r.length + 2 = bs.length := by
  rcases bs with _ | ⟨b0, _ | ⟨b1, rest⟩⟩ <;> simp_all [little_to_big_u16]

/-- A u32 read from fewer than four bytes is the out-of-bounds panic. -/
theorem little_to_big_u32_short {bs : List Nat} (h : bs.length < 4) :
    little_to_big_u32 bs = none := by
  rcases bs with _ | ⟨b0, _ | ⟨b1, _ | ⟨b2, _ | ⟨b3, rest⟩⟩⟩⟩ <;>
    simp_all [little_to_big_u32] <;> omega

/-- A u16 read from fewer than two bytes is the out-of-bounds panic. -/
theorem little_to_big_u16_short {bs : List Nat} (h : bs.length < 2) :
    little_to_big_u16 bs = none := by
  rcases bs with _ | ⟨b0, _ | ⟨b1, rest⟩⟩ <;> simp_all [little_to_big_u16] <;> omega

/-- Computation of WAVFile::parse on a buffer presented in the canonical
44-byte header layout (four valid 4-byte tags interleaved with the
little-endian numeric fields) followed by an arbitrary payload: every
header field is decoded and stored, then the declared subchunk2_size
either exceeds the payload (returned error, header already overwritten,
sample buffer untouched) or the first subchunk2_size payload bytes are
decoded as little-endian i16 pairs and the surplus is left in the
buffer. -/
theorem parse_layout (w : WAVFile) (t1 t2 t3 t4 : List Nat)
    (c0 c1 c2 c3 d0 d1 d2 d3 a0 a1 n0 n1 q0 q1 q2 q3 y0 y1 y2 y3 k0 k1 p0 p1 s0 s1 s2 s3
      : Nat)
    (payload : List Nat)
    (h1 : t1.length = 4) (h2 : t2.length = 4) (h3 : t3.length = 4) (h4 : t4.length = 4)
    (v1 : validUtf8 t1 = true) (v2 : validUtf8 t2 = true) (v3 : validUtf8 t3 = true)
    (v4 : validUtf8 t4 = true) :
    parse w (t1 ++ c0 :: c1 :: c2 :: c3 ::
      (t2 ++ (t3 ++ d0 :: d1 :: d2 :: d3 :: a0 :: a1 :: n0 :: n1 ::
        q0 :: q1 :: q2 :: q3 :: y0 :: y1 :: y2 :: y3 :: k0 :: k1 :: p0 :: p1 ::
        (t4 ++ s0 :: s1 :: s2 :: s3 :: payload)))) =
      (if payload.length < u32le s0 s1 s2 s3 then
        ParseResult.err WavError.unexpected_end_of_file
          { w with
            header :=
              { chunk_id := t1, chunk_size := u32le c0 c1 c2 c3, format := t2,
                subchunk1_id := t3, subchunk1_size := u32le d0 d1 d2 d3,
                audio_format := u16le a0 a1, num_channels := u16le n0 n1,
                sample_rate := u32le q0 q1 q2 q3, byte_rate := u32le y0 y1 y2 y3,
                block_align := u16le k0 k1, bits_per_sample := u16le p0 p1,
                subchunk2_id := t4, subchunk2_size := u32le s0 s1 s2 s3 },
            data_size := u32le s0 s1 s2 s3 } payload
      else
        ParseResult.ok
          { header :=
              { chunk_id := t1, chunk_size := u32le c0 c1 c2 c3, format := t2,
                subchunk1_id := t3, subchunk1_size := u32le d0 d1 d2 d3,
                audio_format := u16le a0 a1, num_channels := u16le n0 n1,
                sample_rate := u32le q0 q1 q2 q3, byte_rate := u32le y0 y1 y2 y3,
                block_align := u16le k0 k1, bits_per_sample := u16le p0 p1,
                subchunk2_id := t4, subchunk2_size := u32le s0 s1 s2 s3 },
            data_size := u32le s0 s1 s2 s3,
            data := chunksExact2 (payload.take (u32le s0 s1 s2 s3)) }
          (payload.drop (u32le s0 s1 s2 s3))) := by
  simp only [parse, bytes_to_boxed_str_ok _ h1 v1, bytes_to_boxed_str_ok _ h2 v2,
    bytes_to_boxed_str_ok _ h3 v3, bytes_to_boxed_str_ok _ h4 v4,
    little_to_big_u32, little_to_big_u16]

/-- C1: for every input made of a 44-byte header whose four tag fields
are valid text, followed by at least subchunk2_size further bytes,
WAVFile::parse succeeds and the resulting sample buffer has exactly
floor(subchunk2_size / 2) signed 16-bit samples (a trailing odd byte is
dropped). -/
theorem parse_valid_even_sample_count (w : WAVFile) (t1 t2 t3 t4 : List Nat)
    (c0 c1 c2 c3 d0 d1 d2 d3 a0 a1 n0 n1 q0 q1 q2 q3 y0 y1 y2 y3 k0 k1 p0 p1 s0 s1 s2 s3
      : Nat)
    (payload : List Nat)
    (h1 : t1.length = 4) (h2 : t2.length = 4) (h3 : t3.length = 4) (h4 : t4.length = 4)
    (v1 : validUtf8 t1 = true) (v2 : validUtf8 t2 = true) (v3 : validUtf8 t3 = true)
    (v4 : validUtf8 t4 = true) (hsz : u32le s0 s1 s2 s3 ≤ payload.length) :
    ∃ w2 rest,
      parse w (t1 ++ c0 :: c1 :: c2 :: c3 ::
        (t2 ++ (t3 ++ d0 :: d1 :: d2 :: d3 :: a0 :: a1 :: n0 :: n1 ::
          q0 :: q1 :: q2 :: q3 :: y0 :: y1 :: y2 :: y3 :: k0 :: k1 :: p0 :: p1 ::
          (t4 ++ s0 :: s1 :: s2 :: s3 :: payload)))) = ParseResult.ok w2 rest ∧
      w2.data.length = u32le s0 s1 s2 s3 / 2 := by
  rw [parse_layout w t1 t2 t3 t4 c0 c1 c2 c3 d0 d1 d2 d3 a0 a1 n0 n1 q0 q1 q2 q3
    y0 y1 y2 y3 k0 k1 p0 p1 s0 s1 s2 s3 payload h1 h2 h3 h4 v1 v2 v3 v4,
    if_neg (by omega)]
  refine ⟨_, _, rfl, ?_⟩
  rw [chunksExact2_length, List.length_take]
  omega

/-- Witness for C1 at a concrete minimal file: canonical tags, declared
payload size 4, payload of 4 bytes, yielding 2 samples. -/
theorem parse_valid_even_sample_count_witness :
    ∃ w2 rest,
      parse {} ([82, 73, 70, 70] ++ 36 :: 0 :: 0 :: 0 ::
        ([87, 65, 86, 69] ++ ([102, 109, 116, 32] ++ 16 :: 0 :: 0 :: 0 :: 1 :: 0 :: 2 :: 0 ::
          68 :: 172 :: 0 :: 0 :: 16 :: 177 :: 2 :: 0 :: 4 :: 0 :: 16 :: 0 ::
          ([100, 97, 116, 97] ++ 4 :: 0 :: 0 :: 0 :: [1, 0, 2, 0])))) =
        ParseResult.ok w2 rest ∧
      w2.data.length = u32le 4 0 0 0 / 2 :=
  parse_valid_even_sample_count {} [82, 73, 70, 70] [87, 65, 86, 69] [102, 109, 116, 32]
    [100, 97, 116, 97] 36 0 0 0 16 0 0 0 1 0 2 0 68 172 0 0 16 177 2 0 4 0 16 0 4 0 0 0
    [1, 0, 2, 0] rfl rfl rfl rfl (by decide) (by decide) (by decide) (by decide) (by decide)

/-- C2 counterexample: a valid header declaring subchunk2_size = 10 with
no payload bytes makes parse return the unexpected-end-of-file error,
but the failed call has overwritten the Header fields (chunk_id has
become "RIFF", unlike the pristine default header), so visible state is
mutated. -/
theorem parse_eof_mutates_header_cex :
    parse {} [82, 73, 70, 70, 44, 0, 0, 0, 87, 65, 86, 69, 102, 109, 116, 32, 16, 0, 0, 0,
        1, 0, 2, 0, 68, 172, 0, 0, 16, 177, 2, 0, 4, 0, 16, 0, 100, 97, 116, 97,
        10, 0, 0, 0] =
      ParseResult.err WavError.unexpected_end_of_file
        { header :=
            { chunk_id := [82, 73, 70, 70], chunk_size := 44, format := [87, 65, 86, 69],
              subchunk1_id := [102, 109, 116, 32], subchunk1_size := 16, audio_format := 1,
              num_channels := 2, sample_rate := 44100, byte_rate := 176400, block_align := 4,
              bits_per_sample := 16, subchunk2_id := [100, 97, 116, 97],
              subchunk2_size := 10 },
          data_size := 10, data := [] } [] ∧
    ({ header :=
        { chunk_id := [82, 73, 70, 70], chunk_size := 44, format := [87, 65, 86, 69],
          subchunk1_id := [102, 109, 116, 32], subchunk1_size := 16, audio_format := 1,
          num_channels := 2, sample_rate := 44100, byte_rate := 176400, block_align := 4,
          bits_per_sample := 16, subchunk2_id := [100, 97, 116, 97],
          subchunk2_size := 10 },
       data_size := 10, data := [] } : WAVFile).header ≠ ({} : WAVFile).header := by
  exact ⟨by decide, by decide⟩

/-- C2 (amended): when the declared subchunk2_size exceeds the bytes
remaining after the 44-byte header, parse returns the
unexpected-end-of-file error; the sample buffer self.data is unchanged,
but the Header fields and data_size have been overwritten with the
parsed values and the 44 header bytes have been consumed from the input
buffer. -/
theorem parse_eof_err_state (w : WAVFile) (t1 t2 t3 t4 : List Nat)
    (c0 c1 c2 c3 d0 d1 d2 d3 a0 a1 n0 n1 q0 q1 q2 q3 y0 y1 y2 y3 k0 k1 p0 p1 s0 s1 s2 s3
      : Nat)
    (payload : List Nat)
    (h1 : t1.length = 4) (h2 : t2.length = 4) (h3 : t3.length = 4) (h4 : t4.length = 4)
    (v1 : validUtf8 t1 = true) (v2 : validUtf8 t2 = true) (v3 : validUtf8 t3 = true)
    (v4 : validUtf8 t4 = true) (hsz : payload.length < u32le s0 s1 s2 s3) :
    parse w (t1 ++ c0 :: c1 :: c2 :: c3 ::
      (t2 ++ (t3 ++ d0 :: d1 :: d2 :: d3 :: a0 :: a1 :: n0 :: n1 ::
        q0 :: q1 :: q2 :: q3 :: y0 :: y1 :: y2 :: y3 :: k0 :: k1 :: p0 :: p1 ::
        (t4 ++ s0 :: s1 :: s2 :: s3 :: payload)))) =
      ParseResult.err WavError.unexpected_end_of_file
        { w with
          header :=
            { chunk_id := t1, chunk_size := u32le c0 c1 c2 c3, format := t2,
              subchunk1_id := t3, subchunk1_size := u32le d0 d1 d2 d3,
              audio_format := u16le a0 a1, num_channels := u16le n0 n1,
              sample_rate := u32le q0 q1 q2 q3, byte_rate := u32le y0 y1 y2 y3,
              block_align := u16le k0 k1, bits_per_sample := u16le p0 p1,
              subchunk2_id := t4, subchunk2_size := u32le s0 s1 s2 s3 },
          data_size := u32le s0 s1 s2 s3 } payload := by
  rw [parse_layout w t1 t2 t3 t4 c0 c1 c2 c3 d0 d1 d2 d3 a0 a1 n0 n1 q0 q1 q2 q3
    y0 y1 y2 y3 k0 k1 p0 p1 s0 s1 s2 s3 payload h1 h2 h3 h4 v1 v2 v3 v4]
  exact if_pos hsz

/-- Witness for the amended C2 at the same concrete input as the
counterexample: size 10 declared, zero payload bytes remaining. -/
theorem parse_eof_err_state_witness :
    parse {} ([82, 73, 70, 70] ++ 44 :: 0 :: 0 :: 0 ::
      ([87, 65, 86, 69] ++ ([102, 109, 116, 32] ++ 16 :: 0 :: 0 :: 0 :: 1 :: 0 :: 2 :: 0 ::
        68 :: 172 :: 0 :: 0 :: 16 :: 177 :: 2 :: 0 :: 4 :: 0 :: 16 :: 0 ::
        ([100, 97, 116, 97] ++ 10 :: 0 :: 0 :: 0 :: [])))) =
      ParseResult.err WavError.unexpected_end_of_file
        { header :=
            { chunk_id := [82, 73, 70, 70], chunk_size := u32le 44 0 0 0,
              format := [87, 65, 86, 69], subchunk1_id := [102, 109, 116, 32],
              subchunk1_size := u32le 16 0 0 0, audio_format := u16le 1 0,
              num_channels := u16le 2 0, sample_rate := u32le 68 172 0 0,
              byte_rate := u32le 16 177 2 0, block_align := u16le 4 0,
              bits_per_sample := u16le 16 0, subchunk2_id := [100, 97, 116, 97],
              subchunk2_size := u32le 10 0 0 0 },
          data_size := u32le 10 0 0 0, data := [] } [] :=
  parse_eof_err_state {} [82, 73, 70, 70] [87, 65, 86, 69] [102, 109, 116, 32]
    [100, 97, 116, 97] 44 0 0 0 16 0 0 0 1 0 2 0 68 172 0 0 16 177 2 0 4 0 16 0 10 0 0 0
    [] rfl rfl rfl rfl (by decide) (by decide) (by decide) (by decide) (by decide)

/-- C5: parse performs no semantic validation: with any four valid
4-byte tags (canonical or not) and any numeric field bytes (audio_format
need not be 1, bits_per_sample need not be 16), a fitting payload makes
it succeed, the tag and format bytes being stored verbatim. -/
theorem parse_no_semantic_validation (w : WAVFile) (t1 t2 t3 t4 : List Nat)
    (c0 c1 c2 c3 d0 d1 d2 d3 a0 a1 n0 n1 q0 q1 q2 q3 y0 y1 y2 y3 k0 k1 p0 p1 s0 s1 s2 s3
      : Nat)
    (payload : List Nat)
    (h1 : t1.length = 4) (h2 : t2.length = 4) (h3 : t3.length = 4) (h4 : t4.length = 4)
    (v1 : validUtf8 t1 = true) (v2 : validUtf8 t2 = true) (v3 : validUtf8 t3 = true)
    (v4 : validUtf8 t4 = true) (hsz : u32le s0 s1 s2 s3 ≤ payload.length) :
    ∃ w2 rest,
      parse w (t1 ++ c0 :: c1 :: c2 :: c3 ::
        (t2 ++ (t3 ++ d0 :: d1 :: d2 :: d3 :: a0 :: a1 :: n0 :: n1 ::
          q0 :: q1 :: q2 :: q3 :: y0 :: y1 :: y2 :: y3 :: k0 :: k1 :: p0 :: p1 ::
          (t4 ++ s0 :: s1 :: s2 :: s3 :: payload)))) = ParseResult.ok w2 rest ∧
      w2.header.chunk_id = t1 ∧ w2.header.format = t2 ∧
      w2.header.audio_format = u16le a0 a1 ∧ w2.header.bits_per_sample = u16le p0 p1 := by
  rw [parse_layout w t1 t2 t3 t4 c0 c1 c2 c3 d0 d1 d2 d3 a0 a1 n0 n1 q0 q1 q2 q3
    y0 y1 y2 y3 k0 k1 p0 p1 s0 s1 s2 s3 payload h1 h2 h3 h4 v1 v2 v3 v4,
    if_neg (by omega)]
  exact ⟨_, _, rfl, rfl, rfl, rfl, rfl⟩

/-- Witness for C5: all four tags are "XXXX", audio_format is 7 (not
PCM) and bits_per_sample is 8 (not 16), yet parsing succeeds. -/
theorem parse_no_semantic_validation_witness :
    ∃ w2 rest,
      parse {} ([88, 88, 88, 88] ++ 0 :: 0 :: 0 :: 0 ::
        ([88, 88, 88, 88] ++ ([88, 88, 88, 88] ++ 16 :: 0 :: 0 :: 0 :: 7 :: 0 :: 1 :: 0 ::
          68 :: 172 :: 0 :: 0 :: 16 :: 177 :: 2 :: 0 :: 4 :: 0 :: 8 :: 0 ::
          ([88, 88, 88, 88] ++ 2 :: 0 :: 0 :: 0 :: [5, 5])))) = ParseResult.ok w2 rest ∧
      w2.header.chunk_id = [88, 88, 88, 88] ∧ w2.header.format = [88, 88, 88, 88] ∧
      w2.header.audio_format = u16le 7 0 ∧ w2.header.bits_per_sample = u16le 8 0 :=
  parse_no_semantic_validation {} [88, 88, 88, 88] [88, 88, 88, 88] [88, 88, 88, 88]
    [88, 88, 88, 88] 0 0 0 0 16 0 0 0 7 0 1 0 68 172 0 0 16 177 2 0 4 0 8 0 2 0 0 0
    [5, 5] rfl rfl rfl rfl (by decide) (by decide) (by decide) (by decide) (by decide)

/-- C6: the concrete example file with sample_rate 44100, two channels,
16 bits per sample, subchunk2_size 8 and payload bytes
0x00 0x00, 0xFF 0x7F, 0x00 0x80, 0x01 0x00 parses to the sample
sequence 0, 32767, -32768, 1. -/
theorem parse_example_samples :
    parse {} [82, 73, 70, 70, 44, 0, 0, 0, 87, 65, 86, 69, 102, 109, 116, 32, 16, 0, 0, 0,
        1, 0, 2, 0, 68, 172, 0, 0, 16, 177, 2, 0, 4, 0, 16, 0, 100, 97, 116, 97,
        8, 0, 0, 0, 0, 0, 255, 127, 0, 128, 1, 0] =
      ParseResult.ok
        { header :=
            { chunk_id := [82, 73, 70, 70], chunk_size := 44, format := [87, 65, 86, 69],
              subchunk1_id := [102, 109, 116, 32], subchunk1_size := 16, audio_format := 1,
              num_channels := 2, sample_rate := 44100, byte_rate := 176400, block_align := 4,
              bits_per_sample := 16, subchunk2_id := [100, 97, 116, 97],
              subchunk2_size := 8 },
          data_size := 8, data := [0, 32767, -32768, 1] } [] := by
  decide

/-- C10: when the bytes remaining after the 44-byte header strictly
exceed the declared subchunk2_size, parse still succeeds, decodes only
the first subchunk2_size payload bytes, and leaves the surplus bytes in
the input buffer without error. -/
theorem parse_trailing_bytes_ignored (w : WAVFile) (t1 t2 t3 t4 : List Nat)
    (c0 c1 c2 c3 d0 d1 d2 d3 a0 a1 n0 n1 q0 q1 q2 q3 y0 y1 y2 y3 k0 k1 p0 p1 s0 s1 s2 s3
      : Nat)
    (payload : List Nat)
    (h1 : t1.length = 4) (h2 : t2.length = 4) (h3 : t3.length = 4) (h4 : t4.length = 4)
    (v1 : validUtf8 t1 = true) (v2 : validUtf8 t2 = true) (v3 : validUtf8 t3 = true)
    (v4 : validUtf8 t4 = true) (hsz : u32le s0 s1 s2 s3 < payload.length) :
    ∃ w2,
      parse w (t1 ++ c0 :: c1 :: c2 :: c3 ::
        (t2 ++ (t3 ++ d0 :: d1 :: d2 :: d3 :: a0 :: a1 :: n0 :: n1 ::
          q0 :: q1 :: q2 :: q3 :: y0 :: y1 :: y2 :: y3 :: k0 :: k1 :: p0 :: p1 ::
          (t4 ++ s0 :: s1 :: s2 :: s3 :: payload)))) =
        ParseResult.ok w2 (payload.drop (u32le s0 s1 s2 s3)) ∧
      w2.data = chunksExact2 (payload.take (u32le s0 s1 s2 s3)) := by
  rw [parse_layout w t1 t2 t3 t4 c0 c1 c2 c3 d0 d1 d2 d3 a0 a1 n0 n1 q0 q1 q2 q3
    y0 y1 y2 y3 k0 k1 p0 p1 s0 s1 s2 s3 payload h1 h2 h3 h4 v1 v2 v3 v4,
    if_neg (by omega)]
  exact ⟨_, rfl, rfl⟩

/-- Witness for C10: declared size 2 with 5 payload bytes; the three
surplus bytes 9, 9, 9 stay in the buffer. -/
theorem parse_trailing_bytes_ignored_witness :
    ∃ w2,
      parse {} ([82, 73, 70, 70] ++ 36 :: 0 :: 0 :: 0 ::
        ([87, 65, 86, 69] ++ ([102, 109, 116, 32] ++ 16 :: 0 :: 0 :: 0 :: 1 :: 0 :: 2 :: 0 ::
          68 :: 172 :: 0 :: 0 :: 16 :: 177 :: 2 :: 0 :: 4 :: 0 :: 16 :: 0 ::
          ([100, 97, 116, 97] ++ 2 :: 0 :: 0 :: 0 :: [3, 0, 9, 9, 9])))) =
        ParseResult.ok w2 ([3, 0, 9, 9, 9].drop (u32le 2 0 0 0)) ∧
      w2.data = chunksExact2 ([3, 0, 9, 9, 9].take (u32le 2 0 0 0)) :=
  parse_trailing_bytes_ignored {} [82, 73, 70, 70] [87, 65, 86, 69] [102, 109, 116, 32]
    [100, 97, 116, 97] 36 0 0 0 16 0 0 0 1 0 2 0 68 172 0 0 16 177 2 0 4 0 16 0 2 0 0 0
    [3, 0, 9, 9, 9] rfl rfl rfl rfl (by decide) (by decide) (by decide) (by decide)
    (by decide)

/-- Helper: on any input shorter than the 44-byte header, some front
read runs out of bytes and WAVFile::parse panics. -/
theorem parse_short (w : WAVFile) (bs : List Nat) (h : bs.length < 44) :
    parse w bs = ParseResult.panicked := by
  rcases e1 : bytes_to_boxed_str bs with _ | _ | ⟨t1, r1⟩
  · simp [parse, e1]
  · simp [parse, e1]
  · have l1 := bytes_to_boxed_str_ok_length e1
    rcases e2 : little_to_big_u32 r1 with _ | ⟨v1, r2⟩
    · simp [parse, e1, e2]
    · have l2 := little_to_big_u32_some_length e2
      rcases e3 : bytes_to_boxed_str r2 with _ | _ | ⟨t2, r3⟩
      · simp [parse, e1, e2, e3]
      · simp [parse, e1, e2, e3]
      · have l3 := bytes_to_boxed_str_ok_length e3
        rcases e4 : bytes_to_boxed_str r3 with _ | _ | ⟨t3, r4⟩
        · simp [parse, e1, e2, e3, e4]
        · simp [parse, e1, e2, e3, e4]
        · have l4 := bytes_to_boxed_str_ok_length e4
          rcases e5 : little_to_big_u32 r4 with _ | ⟨v2, r5⟩
          · simp [parse, e1, e2, e3, e4, e5]
          · have l5 := little_to_big_u32_some_length e5
            rcases e6 : little_to_big_u16 r5 with _ | ⟨v3, r6⟩
            · simp [parse, e1, e2, e3, e4, e5, e6]
            · have l6 := little_to_big_u16_some_length e6
              rcases e7 : little_to_big_u16 r6 with _ | ⟨v4, r7⟩
              · simp [parse, e1, e2, e3, e4, e5, e6, e7]
              · have l7 := little_to_big_u16_some_length e7
                rcases e8 : little_to_big_u32 r7 with _ | ⟨v5, r8⟩
                · simp [parse, e1, e2, e3, e4, e5, e6, e7, e8]
                · have l8 := little_to_big_u32_some_length e8
                  rcases e9 : little_to_big_u32 r8 with _ | ⟨v6, r9⟩
                  · simp [parse, e1, e2, e3, e4, e5, e6, e7, e8, e9]
                  · have l9 := little_to_big_u32_some_length e9
                    rcases e10 : little_to_big_u16 r9 with _ | ⟨v7, r10⟩
                    · simp [parse, e1, e2, e3, e4, e5, e6, e7, e8, e9, e10]
                    · have l10 := little_to_big_u16_some_length e10
                      rcases e11 : little_to_big_u16 r10 with _ | ⟨v8, r11⟩
                      · simp [parse, e1, e2, e3, e4, e5, e6, e7, e8, e9, e10, e11]
                      · have l11 := little_to_big_u16_some_length e11
                        rcases e12 : bytes_to_boxed_str r11 with _ | _ | ⟨t4, r12⟩
                        · simp [parse, e1, e2, e3, e4, e5, e6, e7, e8, e9, e10, e11, e12]
                        · simp [parse, e1, e2, e3, e4, e5, e6, e7, e8, e9, e10, e11, e12]
                        · have l12 := bytes_to_boxed_str_ok_length e12
                          have e13 : little_to_big_u32 r12 = none :=
                            little_to_big_u32_short (by omega)
                          simp [parse, e1, e2, e3, e4, e5, e6, e7, e8, e9, e10, e11, e12,
                            e13]

/-- C3 counterexample: a u32 read from a three-byte buffer and a u16
read from a one-byte buffer hit the out-of-bounds panic (there is no
TruncatedInput error value anywhere in the code to return), and parse on
a 43-byte input likewise panics instead of failing with an error. -/
theorem truncated_input_cex :
    little_to_big_u32 [0, 0, 0] = none ∧ little_to_big_u16 [0] = none ∧
      parse {} (List.replicate 43 0) = ParseResult.panicked := by
  refine ⟨rfl, rfl, ?_⟩
  decide

/-- C3 (amended): little_to_big_u32 (respectively little_to_big_u16)
panics via an out-of-bounds index when fewer than 4 (respectively 2)
bytes remain, and consequently WAVFile::parse on any input shorter than
44 bytes panics; no TruncatedInput error is ever returned. -/
theorem truncated_input_outcomes (bs : List Nat) :
    (bs.length < 4 → little_to_big_u32 bs = none) ∧
    (bs.length < 2 → little_to_big_u16 bs = none) ∧
    (∀ w : WAVFile, bs.length < 44 → parse w bs = ParseResult.panicked) :=
  ⟨fun h => little_to_big_u32_short h, fun h => little_to_big_u16_short h,
    fun w h => parse_short w bs h⟩

/-- Witness for the amended C3 on the one-byte buffer 7. -/
theorem truncated_input_outcomes_witness :
    little_to_big_u32 [7] = none ∧ little_to_big_u16 [7] = none ∧
      parse {} [7] = ParseResult.panicked :=
  ⟨(truncated_input_outcomes [7]).1 (by decide),
    (truncated_input_outcomes [7]).2.1 (by decide),
    (truncated_input_outcomes [7]).2.2 {} (by decide)⟩

/-- C4 counterexample: an input whose first tag field is the invalid
UTF-8 sequence 0xFF 0xFF 0xFF 0xFF (followed by 40 further bytes, so
nothing is truncated) makes WAVFile::parse panic - the .unwrap() inside
parse aborts on the Utf8Error - rather than return an InvalidEncoding
error value to the caller. -/
theorem invalid_tag_cex :
    parse {} (255 :: 255 :: 255 :: 255 :: List.replicate 40 0) = ParseResult.panicked := by
  decide

/-- C4 (amended): bytes_to_boxed_str itself surfaces the
InvalidEncoding (Utf8Error) outcome when the four bytes at the front are
not valid UTF-8, but WAVFile::parse applies .unwrap() to that Result, so
a canonical-layout input in which any of the four tag fields is invalid
makes parse panic instead of propagating the error as a return value. -/
theorem invalid_tag_unwrap_panics :
    (∀ bs : List Nat, 4 ≤ bs.length → validUtf8 (bs.take 4) = false →
      bytes_to_boxed_str bs = TagResult.invalid) ∧
    (∀ (w : WAVFile) (t1 t2 t3 t4 : List Nat)
      (c0 c1 c2 c3 d0 d1 d2 d3 a0 a1 n0 n1 q0 q1 q2 q3 y0 y1 y2 y3 k0 k1 p0 p1 s0 s1 s2 s3
        : Nat)
      (payload : List Nat),
      t1.length = 4 → t2.length = 4 → t3.length = 4 → t4.length = 4 →
      (validUtf8 t1 = false ∨ validUtf8 t2 = false ∨ validUtf8 t3 = false ∨
        validUtf8 t4 = false) →
      parse w (t1 ++ c0 :: c1 :: c2 :: c3 ::
        (t2 ++ (t3 ++ d0 :: d1 :: d2 :: d3 :: a0 :: a1 :: n0 :: n1 ::
          q0 :: q1 :: q2 :: q3 :: y0 :: y1 :: y2 :: y3 :: k0 :: k1 :: p0 :: p1 ::
          (t4 ++ s0 :: s1 :: s2 :: s3 :: payload)))) = ParseResult.panicked) := by
  constructor
  · intro bs h4 hv
    simp only [bytes_to_boxed_str]
    rw [if_pos h4, if_neg (by simp [hv])]
  · intro w t1 t2 t3 t4 c0 c1 c2 c3 d0 d1 d2 d3 a0 a1 n0 n1 q0 q1 q2 q3 y0 y1 y2 y3
      k0 k1 p0 p1 s0 s1 s2 s3 payload h1 h2 h3 h4 hinv
    cases hv1 : validUtf8 t1 with
    | false => simp [parse, bytes_to_boxed_str_invalid _ h1 hv1]
    | true =>
      cases hv2 : validUtf8 t2 with
      | false =>
        simp [parse, bytes_to_boxed_str_ok _ h1 hv1, little_to_big_u32,
          bytes_to_boxed_str_invalid _ h2 hv2]
      | true =>
        cases hv3 : validUtf8 t3 with
        | false =>
          simp [parse, bytes_to_boxed_str_ok _ h1 hv1, bytes_to_boxed_str_ok _ h2 hv2,
            little_to_big_u32, bytes_to_boxed_str_invalid _ h3 hv3]
        | true =>
          cases hv4 : validUtf8 t4 with
          | false =>
            simp [parse, bytes_to_boxed_str_ok _ h1 hv1, bytes_to_boxed_str_ok _ h2 hv2,
              bytes_to_boxed_str_ok _ h3 hv3, little_to_big_u32, little_to_big_u16,
              bytes_to_boxed_str_invalid _ h4 hv4]
          | true => simp [hv1, hv2, hv3, hv4] at hinv

/-- Witness for the amended C4: the format tag is 0xFF 0xFF 0xFF 0xFF
inside an otherwise canonical 44-byte header, and parse panics. -/
theorem invalid_tag_unwrap_panics_witness :
    bytes_to_boxed_str [255, 255, 255, 255] = TagResult.invalid ∧
      parse {} ([82, 73, 70, 70] ++ 0 :: 0 :: 0 :: 0 ::
        ([255, 255, 255, 255] ++ ([102, 109, 116, 32] ++ 16 :: 0 :: 0 :: 0 :: 1 :: 0 ::
          2 :: 0 :: 68 :: 172 :: 0 :: 0 :: 16 :: 177 :: 2 :: 0 :: 4 :: 0 :: 16 :: 0 ::
          ([100, 97, 116, 97] ++ 0 :: 0 :: 0 :: 0 :: [])))) = ParseResult.panicked :=
  ⟨invalid_tag_unwrap_panics.1 [255, 255, 255, 255] (by decide) (by decide),
    invalid_tag_unwrap_panics.2 {} [82, 73, 70, 70] [255, 255, 255, 255]
      [102, 109, 116, 32] [100, 97, 116, 97] 0 0 0 0 16 0 0 0 1 0 2 0 68 172 0 0
      16 177 2 0 4 0 16 0 0 0 0 0 [] rfl rfl rfl rfl (Or.inr (Or.inl (by decide)))⟩

/-- Embedding of struct AudioPlayer: the immutable Arc of i16 sample
data, the internal cursor self.position, and the value held by the
Arc-Mutex shared_position (the lock only serializes access; its stored
usize is the modelled state). -/
structure AudioPlayer where
  data : List Int
  position : Nat
  shared_position : Nat
deriving DecidableEq

/-- Embedding of the for-loop body of AudioCallback::callback: each
output slot receives data[position] while position is in bounds and 0
(silence) afterwards, and position is incremented once per slot.
Returns the filled output buffer and the final position. -/
def callbackLoop (data : List Int) (pos : Nat) : Nat → List Int × Nat
  | 0 => ([], pos)
  | n + 1 =>
    let s := if pos < data.length then data.getD pos 0 else 0
    let r := callbackLoop data (pos + 1) n
    (s :: r.1, r.2)

/-- Embedding of AudioCallback::callback for AudioPlayer on an output
buffer of k slots: run the fill loop, then publish the new position to
the shared Mutex. -/
def callback (p : AudioPlayer) (k : Nat) : List Int × AudioPlayer :=
  let r := callbackLoop p.data p.position k
  (r.1, { p with position := r.2, shared_position := r.2 })

/-- State of the AudioPlayer after n consecutive callback invocations,
each with an output buffer of k slots. -/
def runCallbacks (p : AudioPlayer) (k : Nat) : Nat → AudioPlayer
  | 0 => p
  | n + 1 => (callback (runCallbacks p k n) k).2

/-- Helper: the callback loop fills each slot i with data[pos + i] when
in bounds and 0 otherwise, and leaves the cursor at pos + k. -/
theorem callbackLoop_spec (data : List Int) : ∀ (k pos : Nat),
    callbackLoop data pos k =
      ((List.range k).map fun i =>
        if pos + i < data.length then data.getD (pos + i) 0 else 0, pos + k)
  | 0, pos => by simp [callbackLoop]
  | k + 1, pos => by
    have ih := callbackLoop_spec data k (pos + 1)
    have hfun : (fun i =>
          if pos + 1 + i < data.length then data.getD (pos + 1 + i) 0 else 0) =
        (fun i => if pos + i < data.length then data.getD (pos + i) 0 else 0) ∘
          Nat.succ := by
      funext i
      have h : pos + 1 + i = pos + (i + 1) := by omega
      simp only [Function.comp_apply, Nat.succ_eq_add_one, h]
    simp only [callbackLoop, ih, List.range_succ_eq_map, List.map_cons, List.map_map,
      ← hfun, Nat.add_zero, Prod.mk.injEq]
    exact ⟨trivial, by omega⟩

/-- Helper: starting from position 0 and shared position 0, n callback
invocations with k-slot buffers leave both the internal cursor and the
published shared position at n * k. -/
theorem runCallbacks_closed (data : List Int) (k : Nat) : ∀ n : Nat,
    runCallbacks ⟨data, 0, 0⟩ k n = ⟨data, n * k, n * k⟩
  | 0 => by simp [runCallbacks]
  | n + 1 => by
    have h : n * k + k = (n + 1) * k := by ring
    simp only [runCallbacks, runCallbacks_closed data k n, callback,
      callbackLoop_spec data k (n * k), h]

/-- C7 (amended): during callback-mode playback starting from position
0, the shared PlaybackPosition never decreases from one callback to the
next; its value after n callbacks of k slots is exactly n * k, which is
not clamped at the SampleBuffer length and therefore eventually exceeds
length + k (slots past the end are filled with silence instead). -/
theorem shared_position_monotone_exact (data : List Int) (k n : Nat) :
    (runCallbacks ⟨data, 0, 0⟩ k n).shared_position = n * k ∧
    (runCallbacks ⟨data, 0, 0⟩ k n).shared_position ≤
      (runCallbacks ⟨data, 0, 0⟩ k (n + 1)).shared_position := by
  rw [runCallbacks_closed data k n, runCallbacks_closed data k (n + 1)]
  exact ⟨rfl, by exact Nat.mul_le_mul_right k (Nat.le_succ n)⟩

/-- C7 counterexample: with a 2-sample buffer and 4-slot output buffers,
after two callbacks the shared position reads 8, which exceeds the
SampleBuffer length plus one buffer-fill increment (2 + 4 = 6); the
code never clamps the cursor. -/
theorem shared_position_bound_cex :
    ¬((runCallbacks ⟨[0, 0], 0, 0⟩ 4 2).shared_position ≤ ([0, 0] : List Int).length + 4) := by
  decide

/-- C8: one callback invocation with internal position p and a k-slot
output buffer writes out[i] = data[p + i] for p + i within the sample
buffer and 0 (silence) beyond it, advances the internal position by
exactly k, and publishes that new position to the shared
PlaybackPosition. -/
theorem callback_writes_and_publishes (data : List Int) (p sh k : Nat) :
    (callback ⟨data, p, sh⟩ k).1 =
      ((List.range k).map fun i =>
        if p + i < data.length then data.getD (p + i) 0 else 0) ∧
    (callback ⟨data, p, sh⟩ k).2 = ⟨data, p + k, p + k⟩ := by
  constructor <;> simp [callback, callbackLoop_spec data k p]

/-- Embedding of fn draw_waveform.  The geometric part (the f32 pixel
coordinate arithmetic fed to canvas.draw_line) is outside the embedding;
what is modelled is everything the claims concern: the early return when
the playback position is at or past the buffer end (none = nothing
drawn), the sampled window chunk = data[start..end] with
end = min(start + 4096, len), and the drawn polyline as the list of
consecutive sample-value pairs passed to draw_line. -/
def draw_waveform (data : List Int) (played_samples : Nat) :
    Option (List Int × List (Int × Int)) :=
  let samples_to_display := 4096
  let start := played_samples
  let stop := min (start + samples_to_display) data.length
  if data.length ≤ start then none
  else
    let chunk := (data.drop start).take (stop - start)
    some (chunk,
      (List.range (chunk.length - 1)).map fun i => (chunk.getD i 0, chunk.getD (i + 1) 0))

/-- C9: for a playback position at or past the SampleBuffer length,
draw_waveform draws nothing (a silent no-op, not an error); for a
position before the end it samples exactly the window
[position, min(position + 4096, length)), clipping a window that would
extend past the buffer end. -/
theorem draw_waveform_window_spec (data : List Int) (p : Nat) :
    (data.length ≤ p → draw_waveform data p = none) ∧
    (p < data.length →
      ∃ segs, draw_waveform data p =
        some ((data.drop p).take (min (p + 4096) data.length - p), segs)) := by
  constructor
  · intro hp
    simp [draw_waveform, hp]
  · intro hp
    exact ⟨_, by rw [draw_waveform, if_neg (by omega)]⟩

/-- Witness for C9: position 5 on a 3-sample buffer draws nothing;
position 1 on the same buffer samples the clipped window consisting of
the last two samples. -/
theorem draw_waveform_window_spec_witness :
    draw_waveform [1, 2, 3] 5 = none ∧
      ∃ segs, draw_waveform [1, 2, 3] 1 =
        some ((([1, 2, 3] : List Int).drop 1).take (min (1 + 4096) ([1, 2, 3] : List Int).length - 1),
          segs) :=
  ⟨(draw_waveform_window_spec [1, 2, 3] 5).1 (by decide),
    (draw_waveform_window_spec [1, 2, 3] 1).2 (by decide)⟩

end Wave
